import Mathlib

/-!
Verification of the speedtest_bot repository (src/main.py) against its
natural-language specification.  The Python handlers are shallowly embedded:
pure string manipulation is translated to functions on `String`/`List Char`,
and each handler becomes a function from its inputs (command arguments,
platform name, captured subprocess output, measurement outcome) to the ordered
list of its observable effects (outbound replies, message edits, subprocess
spawns, log records).  Python `\d` is modelled as an ASCII digit, and
`str.lower` as ASCII lowering; `platform.system()` only ever returns ASCII
names, and the claims under study only involve ASCII data.
-/

namespace SpeedtestBot

/-- The MarkdownV2 escape set of `escape_markdown_v2` (src/main.py line 22):
the characters of the Python raw string spelled underscore, asterisk, square
brackets, parentheses, tilde, backtick, greater-than, hash, plus, minus,
equals, pipe, curly braces, dot, bang.  Backtick and the curly braces are
given by code point (96, 123, 125). -/
def escape_chars : List Char :=
  ['_', '*', '[', ']', '(', ')', '~', Char.ofNat 96, '>', '#',
   '+', '-', '=', '|', Char.ofNat 123, Char.ofNat 125, '.', '!']

/-- Model of `escape_markdown_v2` (src/main.py lines 20-23): every character
of the escape set is replaced by a backslash followed by that character, any
other character passes through unchanged. -/
def escape_markdown_v2 (text : String) : String :=
  ⟨text.data.flatMap (fun c => if c ∈ escape_chars then ['\\', c] else [c])⟩

/-- Recognise the literal " ms" that the regex of src/main.py line 152
requires right after the captured group; returns the rest of the input. -/
def stripMs : List Char → Option (List Char)
  | ' ' :: 'm' :: 's' :: r => some r
  | _ => none

/-- One attempt of the Python pattern (backslash d plus, backslash dot
optional, backslash d star, then literal " ms") at the head of the input,
with Python's leftmost greedy-with-backtracking semantics specialised to this
pattern: the group must take the whole digit run, then the optional dot
together with the whole following digit run when the dot is present, since
any shorter choice leaves a digit or a dot where the literal space is
required.  Returns the captured group and the input remaining after the
match. -/
def msMatch (s : List Char) : Option (List Char × List Char) :=
  if (s.takeWhile Char.isDigit).isEmpty then none
  else
    match s.dropWhile Char.isDigit with
    | '.' :: r2 =>
      (stripMs (r2.dropWhile Char.isDigit)).map
        (fun r4 => (s.takeWhile Char.isDigit ++ '.' :: r2.takeWhile Char.isDigit, r4))
    | r1 => (stripMs r1).map (fun r4 => (s.takeWhile Char.isDigit, r4))

/-- Fuel-indexed model of re.findall with the " ms" pattern (src/main.py line
152): scan left to right, on a successful match record the captured group and
resume right after the match, otherwise advance one character.  Each step
consumes at least one character, so fuel equal to the input length is always
enough; `findallFuel_eq` below shows the result does not depend on the fuel
once the fuel covers the input length. -/
def findallFuel : Nat → List Char → List (List Char)
  | 0, _ => []
  | _ + 1, [] => []
  | fuel + 1, c :: rest =>
    match msMatch (c :: rest) with
    | some (g, r) => g :: findallFuel fuel r
    | none => findallFuel fuel rest

/-- Model of the statement stats = re.findall of the " ms" pattern over the
captured standard output (src/main.py line 152), as a list of strings. -/
def findallMs (s : String) : List String :=
  (findallFuel s.data.length s.data).map (fun g => (⟨g⟩ : String))

/-- One observable effect of a handler, in order of execution: an outbound
reply (update.message.reply_text), an edit of the placeholder message as
plain text (msg.edit_text), an edit with parse_mode MarkdownV2, the spawn of
a subprocess with the given argument vector (subprocess.Popen), or an
operator log record (logger.error). -/
inductive Action : Type
  | replyText (body : String)
  | editText (body : String)
  | editMarkdownV2 (body : String)
  | runSubprocess (cmd : List String)
  | log
deriving DecidableEq

/-- Model of Python str.lower restricted to ASCII; platform.system() only
returns ASCII platform names. -/
def asciiLower (s : String) : String := ⟨s.data.map Char.toLower⟩

/-- The platform-dependent repeat-count flag of src/main.py line 136:
param = '-n' if platform.system().lower() == 'windows' else '-c'. -/
def pingParam (platformSystem : String) : String :=
  if asciiLower platformSystem = ("windows") then ("-n") else ("-c")

/-- The min/avg/max selection of src/main.py lines 154-156: Python negative
indices stats[-3], stats[-2], stats[-1] guarded by length checks, with the
"N/A" fallback when too few matches exist. -/
def pingStats (stats : List String) : String × String × String :=
  (if 3 ≤ stats.length then stats.getD (stats.length - 3) ("N/A") else ("N/A"),
   if 2 ≤ stats.length then stats.getD (stats.length - 2) ("N/A") else ("N/A"),
   if 1 ≤ stats.length then stats.getD (stats.length - 1) ("N/A") else ("N/A"))

/-- The MarkdownV2 body of the ping statistics message (src/main.py lines
158-163). -/
def statsBody (host mn av mx : String) : String :=
  "📶 *Ping Results for " ++ escape_markdown_v2 host ++ "*\n\n🏓 *Min:* `"
    ++ mn ++ " ms`\n📊 *Avg:* `" ++ av ++ " ms`\n🚀 *Max:* `" ++ mx ++ " ms`"

/-- Model of ping_command (src/main.py lines 125-169) on the path where the
chat transport and the subprocess spawn succeed: the inputs are the command
argument list, the platform.system() name, and the stdout and stderr texts
captured from the subprocess; the result is the ordered list of observable
effects.  An empty argument list replies with the usage text and stops; the
Python truthiness test on stderr is nonemptiness; the stats branch fires when
the match list is nonempty, otherwise the raw stdout is embedded. -/
def ping_command (args : List String) (platformSystem : String)
    (stdout stderr : String) : List Action :=
  match args with
  | [] => [Action.replyText ("Please specify a host to ping. Example: /ping google.com")]
  | host :: _ =>
    Action.replyText ("⏳ Pinging " ++ host ++ "...") ::
    Action.runSubprocess [("ping"), pingParam platformSystem, ("4"), host] ::
    (if stderr = ("") then
      (if (findallMs stdout).isEmpty then
        [Action.editMarkdownV2
          ("⚠️ Could not parse ping results for " ++ host ++ ":\n\n`" ++ stdout ++ "`")]
      else
        [Action.editMarkdownV2
          (statsBody host (pingStats (findallMs stdout)).1
            (pingStats (findallMs stdout)).2.1 (pingStats (findallMs stdout)).2.2)])
    else
      [Action.editText ("❌ Error pinging " ++ host ++ ":\n" ++ stderr)])

/-- The fields read from the measurement result by speedtest_advanced
(src/main.py lines 102-108).  Float formatting with two decimals is outside
the embedding, so the already-formatted download/upload/ping strings are
inputs. -/
structure AdvancedResult : Type where
  download : String
  upload : String
  ping : String
  server : String
  country : String
  isp : String
  ip : String
deriving DecidableEq

/-- Model of speedtest_advanced (src/main.py lines 94-123): some r means the
measurement succeeded with the given field values and the placeholder is
edited with the MarkdownV2 result; none means the measurement raised after
the placeholder was sent, reaching the local except branch at lines 121-123
which logs once and replies once. -/
def speedtest_advanced (outcome : Option AdvancedResult) : List Action :=
  match outcome with
  | some r =>
    [Action.replyText ("⏳ Running advanced speed test... This may take a minute"),
     Action.editMarkdownV2
       ("📊 *Advanced SpeedTest Results*\n\n🌍 *Server:* `"
         ++ escape_markdown_v2 r.server ++ " (" ++ escape_markdown_v2 r.country ++ ")`"
         ++ "\n🏠 *ISP:* `" ++ escape_markdown_v2 r.isp ++ "`"
         ++ "\n📡 *IP:* `" ++ r.ip ++ "`"
         ++ "\n\n⬇️ *Download:* `" ++ r.download ++ " Mbps`"
         ++ "\n⬆️ *Upload:* `" ++ r.upload ++ " Mbps`"
         ++ "\n🏓 *Ping:* `" ++ r.ping ++ " ms`")]
  | none =>
    [Action.replyText ("⏳ Running advanced speed test... This may take a minute"),
     Action.log,
     Action.replyText ("❌ Failed to run advanced speed test. Please try again later.")]

/-- Model of speedtest_command (src/main.py lines 70-92): some (dl, ul, pg)
means the measurement succeeded with the given formatted values; none means
the measurement raised after the placeholder was sent, reaching the local
except branch at lines 90-92 which logs once and replies once. -/
def speedtest_command (outcome : Option (String × String × String)) : List Action :=
  match outcome with
  | some (dl, ul, pg) =>
    [Action.replyText ("⏳ Running speed test... This may take a minute"),
     Action.editMarkdownV2
       ("📊 *SpeedTest Results*\n\n⬇️ *Download:* `" ++ dl ++ " Mbps`"
         ++ "\n⬆️ *Upload:* `" ++ ul ++ " Mbps`"
         ++ "\n🏓 *Ping:* `" ++ pg ++ " ms`")]
  | none =>
    [Action.replyText ("⏳ Running speed test... This may take a minute"),
     Action.log,
     Action.replyText ("❌ Failed to run speed test. Please try again later.")]

/-- Model of error_handler (src/main.py lines 171-178): one log record
always; the generic reply only when update.effective_message is available
(the if at line 175). -/
def error_handler (hasEffectiveMessage : Bool) : List Action :=
  Action.log ::
  (if hasEffectiveMessage then
    [Action.replyText
      ("⚠️ An error occurred while processing your request. Please try again later.")]
  else [])

/-- Test whether an action is an outbound reply. -/
def isReply : Action → Bool
  | Action.replyText _ => true
  | _ => false

/-- Test whether an action is a log record. -/
def isLog : Action → Bool
  | Action.log => true
  | _ => false

/-- Number of outbound replies among a list of effects. -/
def countReplies (as : List Action) : Nat := (as.filter isReply).length

/-- Number of log records among a list of effects. -/
def countLogs (as : List Action) : Nat := (as.filter isLog).length

theorem stripMs_length {l r : List Char} (h : stripMs l = some r) :
    r.length + 3 = l.length := by
  unfold stripMs at h
  split at h
  · cases h
    rfl
  · cases h

theorem msMatch_length {s g r : List Char} (h : msMatch s = some (g, r)) :
    r.length < s.length := by
  unfold msMatch at h
  split at h
  · cases h
  next hne =>
  have hlen : (s.takeWhile Char.isDigit).length + (s.dropWhile Char.isDigit).length
      = s.length := by
    rw [← List.length_append, List.takeWhile_append_dropWhile]
  have hpos : 0 < (s.takeWhile Char.isDigit).length := by
    cases hte : s.takeWhile Char.isDigit with
    | nil => rw [hte] at hne; simp at hne
    | cons _ _ => simp
  split at h
  next r2 hr1 =>
    rcases Option.map_eq_some'.mp h with ⟨r4, hstrip, heq⟩
    rw [Prod.mk.injEq] at heq
    obtain ⟨-, h2⟩ := heq
    subst h2
    have h3 := stripMs_length hstrip
    have h4 : (r2.dropWhile Char.isDigit).length ≤ r2.length :=
      (List.dropWhile_sublist Char.isDigit).length_le
    have h5 : (s.dropWhile Char.isDigit).length = r2.length + 1 := by
      rw [hr1]; rfl
    omega
  next hshape =>
    rcases Option.map_eq_some'.mp h with ⟨r4, hstrip, heq⟩
    rw [Prod.mk.injEq] at heq
    obtain ⟨-, h2⟩ := heq
    subst h2
    have h3 := stripMs_length hstrip
    omega

theorem findallFuel_eq (n : Nat) : ∀ s : List Char,
    s.length ≤ n → findallFuel n s = findallFuel s.length s := by
  induction n using Nat.strong_induction_on with
  | _ n ih =>
    intro s hn
    match n, s with
    | n, [] => cases n <;> rfl
    | 0, c :: rest => simp at hn
    | n + 1, c :: rest =>
      have hlen : (c :: rest).length = rest.length + 1 := rfl
      have hrest : rest.length ≤ n := by
        rw [hlen] at hn; omega
      rw [hlen]
      show findallFuel (n + 1) (c :: rest) = findallFuel (rest.length + 1) (c :: rest)
      unfold findallFuel
      cases hms : msMatch (c :: rest) with
      | some gr =>
        rcases gr with ⟨g, r⟩
        have hr : r.length < rest.length + 1 := hlen ▸ msMatch_length hms
        have e1 : findallFuel n r = findallFuel r.length r :=
          ih n (by omega) r (by omega)
        have e2 : findallFuel rest.length r = findallFuel r.length r :=
          ih rest.length (by omega) r (by omega)
        show g :: findallFuel n r = g :: findallFuel rest.length r
        rw [e1, e2]
      | none =>
        show findallFuel n rest = findallFuel rest.length rest
        exact ih n (by omega) rest hrest

theorem pingStats_append_three (pre : List String) (a b c : String) :
    pingStats (pre ++ [a, b, c]) = (a, b, c) := by
  unfold pingStats
  have hl : (pre ++ [a, b, c]).length = pre.length + 3 := by simp
  rw [hl]
  rw [if_pos (by omega), if_pos (by omega), if_pos (by omega)]
  rw [List.getD_append_right pre _ _ _ (by omega),
      List.getD_append_right pre _ _ _ (by omega),
      List.getD_append_right pre _ _ _ (by omega)]
  have e1 : pre.length + 3 - 3 - pre.length = 0 := by omega
  have e2 : pre.length + 3 - 2 - pre.length = 1 := by omega
  have e3 : pre.length + 3 - 1 - pre.length = 2 := by omega
  rw [e1, e2, e3]
  rfl

/-- C2: escape_markdown_v2 is a pure total function that maps every character
of the fixed set (underscore, asterisk, square brackets, parentheses, tilde,
backtick, greater-than, hash, plus, minus, equals, pipe, curly braces, dot,
bang) to a backslash followed by that character and leaves every other
character unchanged, preserving left-to-right order; in particular it sends
the string a.b_c to a backslash-dot b backslash-underscore c.  Stated through
the append homomorphism and the action on single characters, which together
determine the function on every string. -/
theorem C2_escape_contract :
    (∀ s t : String,
      escape_markdown_v2 (s ++ t) = escape_markdown_v2 s ++ escape_markdown_v2 t) ∧
    (∀ c : Char, c ∈ escape_chars →
      escape_markdown_v2 (⟨[c]⟩ : String) = (⟨['\\', c]⟩ : String)) ∧
    (∀ c : Char, c ∉ escape_chars →
      escape_markdown_v2 (⟨[c]⟩ : String) = (⟨[c]⟩ : String)) ∧
    (∀ c : Char, c ∈ escape_chars ↔
      (c = '_' ∨ c = '*' ∨ c = '[' ∨ c = ']' ∨ c = '(' ∨ c = ')' ∨ c = '~' ∨
       c = Char.ofNat 96 ∨ c = '>' ∨ c = '#' ∨ c = '+' ∨ c = '-' ∨ c = '=' ∨
       c = '|' ∨ c = Char.ofNat 123 ∨ c = Char.ofNat 125 ∨ c = '.' ∨ c = '!')) ∧
    escape_markdown_v2 ("a.b_c") = ("a\\.b\\_c") := by
  refine ⟨?_, ?_, ?_, ?_, by decide⟩
  · intro s t
    simp only [escape_markdown_v2, String.data_append, List.flatMap_append]
    rfl
  · intro c hc
    simp [escape_markdown_v2, String.singleton, hc]
  · intro c hc
    simp [escape_markdown_v2, String.singleton, hc]
  · intro c
    simp [escape_chars]

theorem C2_escape_contract_witness :
    ('.' ∈ escape_chars ∧
      escape_markdown_v2 (⟨['.']⟩ : String) = (⟨['\\', '.']⟩ : String)) ∧
    (escape_chars.contains 'a' = false ∧
      escape_markdown_v2 (⟨['a']⟩ : String) = (⟨['a']⟩ : String)) :=
  ⟨⟨by decide, C2_escape_contract.2.1 '.' (by decide)⟩,
   ⟨by decide, C2_escape_contract.2.2.1 'a' (by decide)⟩⟩

/-- C10: escape_markdown_v2 is not idempotent: applying it twice to the
string a-dot differs from applying it once, because the backslash is not in
the escape set while the dot is escaped again on re-application. -/
theorem C10_not_idempotent :
    (escape_markdown_v2 (escape_markdown_v2 ("a.")) == escape_markdown_v2 ("a.")) = false ∧
    escape_chars.contains '\\' = false ∧
    escape_markdown_v2 ("a.") = ("a\\.") ∧
    escape_markdown_v2 ("a\\.") = ("a\\\\.") := by
  decide

/-- C6: invoked with an empty argument list, the ping handler replies with
the literal plain-text usage message and stops: no placeholder message, no
subprocess spawn, no probe. -/
theorem C6_usage_without_args :
    ∀ (platf stdout stderr : String),
      ping_command [] platf stdout stderr =
        [Action.replyText ("Please specify a host to ping. Example: /ping google.com")] := by
  intro platf stdout stderr
  rfl

/-- C7: when the captured stderr of the ping subprocess is nonempty, the
handler edits the placeholder with a plain-text error message containing
that stderr text and stops: no stdout parsing, no min/avg/max message. -/
theorem C7_stderr_short_circuit :
    ∀ (host platf stdout stderr : String) (rest : List String),
      stderr ≠ ("") →
      ping_command (host :: rest) platf stdout stderr =
        [Action.replyText ("⏳ Pinging " ++ host ++ "..."),
         Action.runSubprocess [("ping"), pingParam platf, ("4"), host],
         Action.editText ("❌ Error pinging " ++ host ++ ":\n" ++ stderr)] := by
  intro host platf stdout stderr rest h
  simp only [ping_command]
  rw [if_neg h]

theorem C7_stderr_short_circuit_witness :
    ping_command (("a_b") :: []) ("Linux") ("ignored output") ("ping: unknown host a_b") =
      [Action.replyText ("⏳ Pinging a_b..."),
       Action.runSubprocess [("ping"), pingParam ("Linux"), ("4"), ("a_b")],
       Action.editText ("❌ Error pinging a_b:\n" ++ ("ping: unknown host a_b"))] :=
  C7_stderr_short_circuit ("a_b") ("Linux") ("ignored output")
    ("ping: unknown host a_b") [] (by decide)

/-- C8: the ping handler always spawns the OS ping utility with repeat count
4 against the target host, with the repeat-count flag -n exactly when the
lowered platform.system() name is windows and -c on every other platform. -/
theorem C8_subprocess_vector :
    (∀ (host platf stdout stderr : String) (rest : List String),
      (ping_command (host :: rest) platf stdout stderr)[1]? =
        some (Action.runSubprocess [("ping"), pingParam platf, ("4"), host])) ∧
    pingParam ("Windows") = ("-n") ∧
    (∀ platf : String, asciiLower platf ≠ ("windows") → pingParam platf = ("-c")) := by
  refine ⟨?_, by decide, ?_⟩
  · intro host platf stdout stderr rest
    simp only [ping_command, List.getElem?_cons_succ, List.getElem?_cons_zero]
  · intro platf h
    unfold pingParam
    rw [if_neg h]

theorem C8_subprocess_vector_witness :
    pingParam ("Linux") = ("-c") ∧
    (ping_command (("google.com") :: []) ("Windows") ("") (""))[1]? =
      some (Action.runSubprocess [("ping"), ("-n"), ("4"), ("google.com")]) :=
  ⟨C8_subprocess_vector.2.2 ("Linux") (by decide),
   C8_subprocess_vector.1 ("google.com") ("Windows") ("") ("") []⟩

/-- C3: whenever the match list of the " ms" pattern over stdout has at least
three elements, the handler formats the third-from-last match as min, the
second-from-last as avg and the last as max, in that order. -/
theorem C3_last_three_matches :
    ∀ (host platf stdout : String) (rest pre : List String) (a b c : String),
      findallMs stdout = pre ++ [a, b, c] →
      ping_command (host :: rest) platf stdout ("") =
        [Action.replyText ("⏳ Pinging " ++ host ++ "..."),
         Action.runSubprocess [("ping"), pingParam platf, ("4"), host],
         Action.editMarkdownV2 (statsBody host a b c)] := by
  intro host platf stdout rest pre a b c hst
  simp only [ping_command, hst, pingStats_append_three]
  simp

theorem C3_last_three_matches_witness :
    findallMs ("1.2 ms 3.4 ms 5.6 ms") = [] ++ [("1.2"), ("3.4"), ("5.6")] ∧
    ping_command (("google.com") :: []) ("Linux") ("1.2 ms 3.4 ms 5.6 ms") ("") =
      [Action.replyText ("⏳ Pinging google.com..."),
       Action.runSubprocess [("ping"), pingParam ("Linux"), ("4"), ("google.com")],
       Action.editMarkdownV2 (statsBody ("google.com") ("1.2") ("3.4") ("5.6"))] :=
  ⟨by decide,
   C3_last_three_matches ("google.com") ("Linux") ("1.2 ms 3.4 ms 5.6 ms")
     [] [] ("1.2") ("3.4") ("5.6") (by decide)⟩

/-- C4: with exactly one " ms" match, min and avg are N/A and max is that
single matched value; more generally with fewer than three matches min is
N/A and with fewer than two matches avg is also N/A. -/
theorem C4_shortfall_na :
    (∀ stats : List String, stats.length < 3 → (pingStats stats).1 = ("N/A")) ∧
    (∀ stats : List String, stats.length < 2 → (pingStats stats).2.1 = ("N/A")) ∧
    (∀ (host platf stdout : String) (rest : List String) (a : String),
      findallMs stdout = [a] →
      ping_command (host :: rest) platf stdout ("") =
        [Action.replyText ("⏳ Pinging " ++ host ++ "..."),
         Action.runSubprocess [("ping"), pingParam platf, ("4"), host],
         Action.editMarkdownV2 (statsBody host ("N/A") ("N/A") a)]) := by
  refine ⟨?_, ?_, ?_⟩
  · intro stats h
    unfold pingStats
    rw [if_neg (by omega)]
  · intro stats h
    unfold pingStats
    rw [if_neg (show ¬ 2 ≤ stats.length from by omega)]
  · intro host platf stdout rest a hst
    have hone : pingStats [a] = (("N/A"), ("N/A"), a) := by
      unfold pingStats
      rw [if_neg (by simp), if_neg (by simp), if_pos (by simp)]
      rfl
    simp only [ping_command, hst, hone]
    simp

theorem C4_shortfall_na_witness :
    (([("only")] : List String).length < 3 ∧ (pingStats [("only")]).1 = ("N/A")) ∧
    (([("only")] : List String).length < 2 ∧ (pingStats [("only")]).2.1 = ("N/A")) ∧
    (findallMs ("x 1.2 ms") = [("1.2")] ∧
      ping_command (("google.com") :: []) ("Linux") ("x 1.2 ms") ("") =
        [Action.replyText ("⏳ Pinging google.com..."),
         Action.runSubprocess [("ping"), pingParam ("Linux"), ("4"), ("google.com")],
         Action.editMarkdownV2 (statsBody ("google.com") ("N/A") ("N/A") ("1.2"))]) :=
  ⟨⟨by decide, C4_shortfall_na.1 [("only")] (by decide)⟩,
   ⟨by decide, C4_shortfall_na.2.1 [("only")] (by decide)⟩,
   ⟨by decide, C4_shortfall_na.2.2 ("google.com") ("Linux") ("x 1.2 ms") [] ("1.2")
     (by decide)⟩⟩

/-- C5: with zero " ms" matches in stdout, the handler edits the placeholder
with the message that embeds the raw stdout verbatim between backticks, and
produces no min/avg/max statistics message. -/
theorem C5_no_match_raw_output :
    ∀ (host platf stdout : String) (rest : List String),
      findallMs stdout = [] →
      ping_command (host :: rest) platf stdout ("") =
        [Action.replyText ("⏳ Pinging " ++ host ++ "..."),
         Action.runSubprocess [("ping"), pingParam platf, ("4"), host],
         Action.editMarkdownV2
           ("⚠️ Could not parse ping results for " ++ host ++ ":\n\n`" ++ stdout ++ "`")] := by
  intro host platf stdout rest hst
  simp only [ping_command, hst]
  simp

theorem C5_no_match_raw_output_witness :
    findallMs ("unknown host") = [] ∧
    ping_command (("google.com") :: []) ("Linux") ("unknown host") ("") =
      [Action.replyText ("⏳ Pinging google.com..."),
       Action.runSubprocess [("ping"), pingParam ("Linux"), ("4"), ("google.com")],
       Action.editMarkdownV2
         ("⚠️ Could not parse ping results for google.com:\n\n`" ++ ("unknown host") ++ "`")] :=
  ⟨by decide,
   C5_no_match_raw_output ("google.com") ("Linux") ("unknown host") [] (by decide)⟩

/-- C1 counterexample: the claim asserts that every untrusted text field of a
MarkdownV2-rendered message passes through escape_markdown_v2, including the
branch of the ping handler that embeds the raw ping output when no " ms"
match is found.  In that branch (src/main.py line 166) the host and the raw
stdout are interpolated without the sanitizer: at host a_b and stdout x_y the
MarkdownV2 body actually produced differs from the body prescribed by the
claim. -/
theorem C1_counterexample :
    ping_command (("a_b") :: []) ("Linux") ("x_y") ("") =
      [Action.replyText ("⏳ Pinging a_b..."),
       Action.runSubprocess [("ping"), ("-c"), ("4"), ("a_b")],
       Action.editMarkdownV2 ("⚠️ Could not parse ping results for a_b:\n\n`x_y`")] ∧
    (("⚠️ Could not parse ping results for a_b:\n\n`x_y`") ==
      ("⚠️ Could not parse ping results for " ++ escape_markdown_v2 ("a_b")
        ++ ":\n\n`" ++ escape_markdown_v2 ("x_y") ++ "`")) = false := by
  decide

/-- C1 amended: in speedtest_advanced the sponsor, country and ISP fields are
passed through escape_markdown_v2 while the client IP and the numeric fields
are inserted unescaped, and in the statistics branch of the ping handler the
host is escaped while the millisecond values are inserted unescaped; but in
the branch taken when no " ms" match is found, the ping handler interpolates
both the host and the raw ping output into the MarkdownV2 template without
the sanitizer. -/
theorem C1_sanitization :
    (∀ r : AdvancedResult,
      speedtest_advanced (some r) =
        [Action.replyText ("⏳ Running advanced speed test... This may take a minute"),
         Action.editMarkdownV2
           ("📊 *Advanced SpeedTest Results*\n\n🌍 *Server:* `"
             ++ escape_markdown_v2 r.server ++ " (" ++ escape_markdown_v2 r.country ++ ")`"
             ++ "\n🏠 *ISP:* `" ++ escape_markdown_v2 r.isp ++ "`"
             ++ "\n📡 *IP:* `" ++ r.ip ++ "`"
             ++ "\n\n⬇️ *Download:* `" ++ r.download ++ " Mbps`"
             ++ "\n⬆️ *Upload:* `" ++ r.upload ++ " Mbps`"
             ++ "\n🏓 *Ping:* `" ++ r.ping ++ " ms`")]) ∧
    (∀ (host platf stdout : String) (rest : List String),
      findallMs stdout ≠ [] →
      (ping_command (host :: rest) platf stdout ("")).getLast? =
        some (Action.editMarkdownV2
          ("📶 *Ping Results for " ++ escape_markdown_v2 host ++ "*\n\n🏓 *Min:* `"
            ++ (pingStats (findallMs stdout)).1 ++ " ms`\n📊 *Avg:* `"
            ++ (pingStats (findallMs stdout)).2.1 ++ " ms`\n🚀 *Max:* `"
            ++ (pingStats (findallMs stdout)).2.2 ++ " ms`"))) ∧
    (∀ (host platf stdout : String) (rest : List String),
      findallMs stdout = [] →
      (ping_command (host :: rest) platf stdout ("")).getLast? =
        some (Action.editMarkdownV2
          ("⚠️ Could not parse ping results for " ++ host ++ ":\n\n`" ++ stdout ++ "`"))) := by
  refine ⟨?_, ?_, ?_⟩
  · intro r
    rfl
  · intro host platf stdout rest h
    have hne : (findallMs stdout).isEmpty = false := by
      cases hfe : findallMs stdout with
      | nil => exact absurd hfe h
      | cons x xs => rfl
    simp only [ping_command, hne]
    simp [statsBody]
  · intro host platf stdout rest h
    simp only [ping_command, h]
    simp

theorem C1_sanitization_witness :
    findallMs ("1.2 ms") = [("1.2")] ∧
    (ping_command (("a_b") :: []) ("Linux") ("1.2 ms") ("")).getLast? =
      some (Action.editMarkdownV2
        ("📶 *Ping Results for " ++ escape_markdown_v2 ("a_b") ++ "*\n\n🏓 *Min:* `"
          ++ (pingStats (findallMs ("1.2 ms"))).1 ++ " ms`\n📊 *Avg:* `"
          ++ (pingStats (findallMs ("1.2 ms"))).2.1 ++ " ms`\n🚀 *Max:* `"
          ++ (pingStats (findallMs ("1.2 ms"))).2.2 ++ " ms`")) ∧
    (ping_command (("a_b") :: []) ("Linux") ("no stats here") ("")).getLast? =
      some (Action.editMarkdownV2
        ("⚠️ Could not parse ping results for " ++ ("a_b") ++ ":\n\n`"
          ++ ("no stats here") ++ "`")) :=
  ⟨by decide,
   C1_sanitization.2.1 ("a_b") ("Linux") ("1.2 ms") [] (by decide),
   C1_sanitization.2.2 ("a_b") ("Linux") ("no stats here") [] (by decide)⟩

/-- C9 counterexample: an error reaching the global error handler while the
update has no resolvable effective_message produces one log record but zero
outbound replies (the if at src/main.py line 175), contradicting the claim
that every error yields exactly one reply and never zero. -/
theorem C9_counterexample :
    countReplies (error_handler false) = 0 ∧ countLogs (error_handler false) = 1 := by
  decide

/-- C9 amended: every error reaching the global error handler produces
exactly one log record, and exactly one outbound reply when the update's
effective_message is resolvable and zero replies otherwise; an error raised
by the measurement inside speedtest_command or speedtest_advanced is caught
locally, adding exactly one log record and exactly one error reply after the
already-sent placeholder reply, so the handler never crashes the process
there. -/
theorem C9_error_accounting :
    (∀ b : Bool, countLogs (error_handler b) = 1) ∧
    (∀ b : Bool, countReplies (error_handler b) = (if b then 1 else 0)) ∧
    countLogs (speedtest_command none) = 1 ∧
    countReplies (speedtest_command none) = 2 ∧
    (speedtest_command none).getLast? =
      some (Action.replyText ("❌ Failed to run speed test. Please try again later.")) ∧
    countLogs (speedtest_advanced none) = 1 ∧
    countReplies (speedtest_advanced none) = 2 ∧
    (speedtest_advanced none).getLast? =
      some (Action.replyText ("❌ Failed to run advanced speed test. Please try again later.")) := by
  decide

end SpeedtestBot
